import Mathlib

/-!
# blnk: the balance posting engine

A shallow embedding of `src/blnk.go` (package `blnk`): the records `Balance`
and `Transaction` with the records they refer to, and the methods
`AddCredit`, `AddDebit`, `ComputeBalance`, `AttachBalanceBefore`,
`AttachBalanceAfter`, `applyMultiplier`, `UpdateBalances` and `validate`.

Modelling conventions.

* A Go `int64` is an `Int`; every arithmetic operation of the source is
  followed by `wrapInt64`, the two's-complement wrap-around of Go.  A record
  is well formed (`Balance.WF`, `Transaction.WF`) when its `int64` fields lie
  in `[-2^63, 2^63)`.
* A pointer-receiver method that mutates its receiver or its argument becomes
  a function returning the new value(s): explicit state passing.
* A Go `error` is an `Option String`: `none` is `nil`, `some msg` is
  `errors.New(msg)`.
* `time.Time` and `interface{}` are library types the engine never inspects;
  they are carried as plain data (`Time`, `Value`).
* Receivers and arguments are the records themselves: the nil pointers, on
  which the Go methods panic, are outside the model.
-/

namespace Blnk

set_option linter.dupNamespace false

/-! ## Machine integers -/

/-- Smallest `int64`. -/
def int64Min : Int := -(2 ^ 63)

/-- Largest `int64`. -/
def int64Max : Int := 2 ^ 63 - 1

/-- Membership in the range of `int64`. -/
def inInt64 (x : Int) : Prop := int64Min ≤ x ∧ x ≤ int64Max

instance (x : Int) : Decidable (inInt64 x) := by
  unfold inInt64; exact inferInstance

/-- Two-complement wrap-around of an integer into the range of `int64`. -/
def wrapInt64 (x : Int) : Int := (x + 2 ^ 63) % 2 ^ 64 - 2 ^ 63

/-- Go `a + b` on `int64`. -/
def addInt64 (a b : Int) : Int := wrapInt64 (a + b)

/-- Go `a - b` on `int64`. -/
def subInt64 (a b : Int) : Int := wrapInt64 (a - b)

/-- Go `a * b` on `int64`. -/
def mulInt64 (a b : Int) : Int := wrapInt64 (a * b)

/-! ## Data model -/

/-- Go `time.Time`, carried as seconds and nanoseconds; never inspected. -/
structure Time where
  sec : Int
  nsec : Int

/-- Go `interface{}` as it occurs in the metadata maps. -/
inductive Value where
  | null : Value
  | bool : Bool → Value
  | num : Int → Value
  | str : String → Value
  | arr : List Value → Value
  | obj : List (String × Value) → Value

/-- Go `map[string]interface{}`. -/
abbrev MetaData := List (String × Value)

/-- Record `Ledger` of the source. -/
structure Ledger where
  ID : Int
  LedgerID : String
  Name : String
  CreatedAt : Time
  MetaData : MetaData

/-- Record `Individual` of the source. -/
structure Individual where
  FirstName : String
  LastName : String
  OtherNames : String
  Gender : String
  DOB : Time
  EmailAddress : String
  PhoneNumber : String
  Nationality : String

/-- Record `Organization` of the source. -/
structure Organization where
  Name : String
  Category : String

/-- Record `Identity` of the source. -/
structure Identity where
  IdentityID : String
  IdentityType : String
  Individual : Individual
  Organization : Organization
  Street : String
  Country : String
  State : String
  PostCode : String
  City : String
  CreatedAt : Time
  MetaData : MetaData

/-- Record `Transaction` of the source, field for field. -/
structure Transaction where
  ID : Int
  TransactionID : String
  Tag : String
  Reference : String
  Amount : Int
  Currency : String
  DRCR : String
  Status : String
  LedgerID : String
  BalanceID : String
  CreditBalanceBefore : Int
  DebitBalanceBefore : Int
  CreditBalanceAfter : Int
  DebitBalanceAfter : Int
  BalanceBefore : Int
  BalanceAfter : Int
  CreatedAt : Time
  ScheduledFor : Time
  SkipBalanceUpdate : Bool
  MetaData : MetaData

/-- Record `Balance` of the source, field for field; the two pointer fields
are `Option`s (`none` is the nil pointer). -/
structure Balance where
  ID : Int
  BalanceID : String
  Balance : Int
  CreditBalance : Int
  DebitBalance : Int
  Currency : String
  CurrencyMultiplier : Int
  LedgerID : String
  IdentityID : String
  Identity : Option Identity
  Ledger : Option Ledger
  CreatedAt : Time
  MetaData : MetaData

/-- The zero `time.Time`. -/
def Time.zero : Time := ⟨0, 0⟩

/-- The Go zero value of `Transaction`. -/
def Transaction.zero : Transaction :=
  { ID := 0, TransactionID := "", Tag := "", Reference := "", Amount := 0,
    Currency := "", DRCR := "", Status := "", LedgerID := "", BalanceID := "",
    CreditBalanceBefore := 0, DebitBalanceBefore := 0, CreditBalanceAfter := 0,
    DebitBalanceAfter := 0, BalanceBefore := 0, BalanceAfter := 0,
    CreatedAt := Time.zero, ScheduledFor := Time.zero,
    SkipBalanceUpdate := false, MetaData := [] }

/-- The Go zero value of `Balance`. -/
def Balance.zero : Blnk.Balance :=
  { ID := 0, BalanceID := "", Balance := 0, CreditBalance := 0,
    DebitBalance := 0, Currency := "", CurrencyMultiplier := 0, LedgerID := "",
    IdentityID := "", Identity := none, Ledger := none, CreatedAt := Time.zero,
    MetaData := [] }

/-- Every `int64` field of a transaction is in range. -/
def Transaction.WF (t : Transaction) : Prop :=
  inInt64 t.ID ∧ inInt64 t.Amount ∧
  inInt64 t.CreditBalanceBefore ∧ inInt64 t.DebitBalanceBefore ∧
  inInt64 t.CreditBalanceAfter ∧ inInt64 t.DebitBalanceAfter ∧
  inInt64 t.BalanceBefore ∧ inInt64 t.BalanceAfter

/-- Every `int64` field of a balance is in range. -/
def Balance.WF (b : Blnk.Balance) : Prop :=
  inInt64 b.ID ∧ inInt64 b.Balance ∧ inInt64 b.CreditBalance ∧
  inInt64 b.DebitBalance ∧ inInt64 b.CurrencyMultiplier

instance (t : Transaction) : Decidable t.WF := by
  unfold Transaction.WF; exact inferInstance

instance (b : Balance) : Decidable b.WF := by
  unfold Balance.WF; exact inferInstance

/-! ## Operations -/

/-- Message of the error `validate` returns for a non-positive amount. -/
def errInvalidAmount : String := "transaction amount must be positive"

/-- Message of the error `validate` returns for a bad direction. -/
def errInvalidDirection : String := "transaction DRCR must be 'Credit' or 'Debit'"

/-- Method `AddCredit`: `balance.CreditBalance += amount`. -/
def Balance.AddCredit (balance : Blnk.Balance) (amount : Int) : Blnk.Balance :=
  { balance with CreditBalance := addInt64 balance.CreditBalance amount }

/-- Method `AddDebit`: `balance.DebitBalance += amount`. -/
def Balance.AddDebit (balance : Blnk.Balance) (amount : Int) : Blnk.Balance :=
  { balance with DebitBalance := addInt64 balance.DebitBalance amount }

/-- Method `ComputeBalance`:
`balance.Balance = balance.CreditBalance - balance.DebitBalance`. -/
def Balance.ComputeBalance (balance : Blnk.Balance) : Blnk.Balance :=
  { balance with Balance := subInt64 balance.CreditBalance balance.DebitBalance }

/-- Method `AttachBalanceBefore`: copies the three totals of the balance into
the "before" fields of the transaction. -/
def Balance.AttachBalanceBefore (balance : Blnk.Balance) (transaction : Transaction) :
    Transaction :=
  { transaction with
    DebitBalanceBefore := balance.DebitBalance
    CreditBalanceBefore := balance.CreditBalance
    BalanceBefore := balance.Balance }

/-- Method `AttachBalanceAfter`: copies the three totals of the balance into
the "after" fields of the transaction. -/
def Balance.AttachBalanceAfter (balance : Blnk.Balance) (transaction : Transaction) :
    Transaction :=
  { transaction with
    DebitBalanceAfter := balance.DebitBalance
    CreditBalanceAfter := balance.CreditBalance
    BalanceAfter := balance.Balance }

/-- Method `applyMultiplier`: a zero multiplier is first stored back as 1, then
the amount of the transaction is multiplied by the stored multiplier. -/
def Balance.applyMultiplier (balance : Blnk.Balance) (transaction : Transaction) :
    Blnk.Balance × Transaction :=
  let balance :=
    if balance.CurrencyMultiplier = 0 then { balance with CurrencyMultiplier := 1 }
    else balance
  (balance,
    { transaction with Amount := mulInt64 transaction.Amount balance.CurrencyMultiplier })

/-- Method `validate`: the amount is checked first, then the direction. -/
def Transaction.validate (transaction : Transaction) : Option String :=
  if transaction.Amount ≤ 0 then
    some errInvalidAmount
  else if transaction.DRCR ≠ "Credit" ∧ transaction.DRCR ≠ "Debit" then
    some errInvalidDirection
  else
    none

/-- Method `UpdateBalances`: returns the error together with the balance and
the transaction as they are when the call returns. -/
def Balance.UpdateBalances (balance : Blnk.Balance) (transaction : Transaction) :
    Option String × Blnk.Balance × Transaction :=
  match transaction.validate with
  | some err => (some err, balance, transaction)
  | none =>
    let (balance, transaction) := balance.applyMultiplier transaction
    let transaction := balance.AttachBalanceBefore transaction
    let balance :=
      if transaction.DRCR = "Credit" then balance.AddCredit transaction.Amount
      else balance.AddDebit transaction.Amount
    let balance := balance.ComputeBalance
    let transaction := balance.AttachBalanceAfter transaction
    (none, balance, transaction)

/-- A transaction passes validation: positive amount, exact direction. -/
def Transaction.Valid (t : Transaction) : Prop :=
  0 < t.Amount ∧ (t.DRCR = "Credit" ∨ t.DRCR = "Debit")

instance (t : Transaction) : Decidable t.Valid := by
  unfold Transaction.Valid; exact inferInstance

/-- Scenario A of the specification: the balance. -/
def scenarioABalance : Balance := { Balance.zero with CurrencyMultiplier := 2 }

/-- Scenario A of the specification: the transaction. -/
def scenarioATransaction : Transaction :=
  { Transaction.zero with Amount := 100, DRCR := "Credit" }

/-- Scenario C of the specification: the transaction. -/
def scenarioCTransaction : Transaction :=
  { Transaction.zero with Amount := -10, DRCR := "Credit" }

/-- Scenario D of the specification: the transaction. -/
def scenarioDTransaction : Transaction :=
  { Transaction.zero with Amount := 10, DRCR := "credit" }

/-! ## Derived notions and concrete inputs -/

/-- The multiplier `applyMultiplier` uses: the stored one, or 1 when it is 0. -/
def Balance.effectiveMultiplier (b : Blnk.Balance) : Int :=
  if b.CurrencyMultiplier = 0 then 1 else b.CurrencyMultiplier

/-- A balance whose stored net balance disagrees with its totals. -/
def staleBalance : Blnk.Balance :=
  { Balance.zero with
    Balance := 7, CreditBalance := 500, DebitBalance := 200, CurrencyMultiplier := 3 }

/-- A balance with totals and an unset multiplier. -/
def unsetMultiplierBalance : Blnk.Balance :=
  { Balance.zero with Balance := 300, CreditBalance := 500, DebitBalance := 200 }

/-- The balance `unsetMultiplierBalance` with multiplier 1. -/
def unitMultiplierBalance : Blnk.Balance :=
  { unsetMultiplierBalance with CurrencyMultiplier := 1 }

/-- A credit of 100 with `SkipBalanceUpdate` set. -/
def skippedCredit : Transaction :=
  { Transaction.zero with Amount := 100, DRCR := "Credit", SkipBalanceUpdate := true }

/-- A transaction of amount -10 with the wrong-case direction "credit". -/
def wrongCaseNegative : Transaction :=
  { Transaction.zero with Amount := -10, DRCR := "credit" }

/-- A debit of 50. -/
def debitFifty : Transaction := { Transaction.zero with Amount := 50, DRCR := "Debit" }

/-- A transaction of amount 0 with direction "Credit". -/
def zeroAmountCredit : Transaction := { Transaction.zero with DRCR := "Credit" }

/-- A credit of 100 that carries other data than `scenarioATransaction`. -/
def taggedCredit : Transaction :=
  { Transaction.zero with
    ID := 9, Tag := "rent", Reference := "ref-1", Amount := 100, Currency := "NGN",
    DRCR := "Credit", BalanceID := "bln_1", SkipBalanceUpdate := true }

/-- Posting the same transaction object twice on the same balance: the second
call gets the balance and the transaction as the first call left them. -/
def Balance.postTwice (b : Blnk.Balance) (t : Transaction) :
    Option String × Blnk.Balance × Transaction :=
  (b.UpdateBalances t).2.1.UpdateBalances (b.UpdateBalances t).2.2

/-- A zero balance with multiplier -1. -/
def negativeMultiplierBalance : Blnk.Balance :=
  { Balance.zero with CurrencyMultiplier := -1 }

/-- A balance whose credit total is the largest `int64`. -/
def fullCreditBalance : Blnk.Balance :=
  { Balance.zero with
    Balance := 9223372036854775807, CreditBalance := 9223372036854775807,
    CurrencyMultiplier := 1 }

/-- A credit of 1. -/
def creditOne : Transaction := { Transaction.zero with Amount := 1, DRCR := "Credit" }

/-- Scenario B of the specification: the balance, with the fields the scenario
does not list (the stored net balance among them) at their zero value. -/
def scenarioBBalance : Blnk.Balance :=
  { Balance.zero with CreditBalance := 500, DebitBalance := 200, CurrencyMultiplier := 1 }

/-- Scenario B of the specification: the transaction. -/
def scenarioBTransaction : Transaction :=
  { Transaction.zero with Amount := 50, DRCR := "Debit" }

/-- The balance of Scenario B storing the net balance of its totals, 300. -/
def scenarioBConsistentBalance : Blnk.Balance :=
  { scenarioBBalance with Balance := 300 }

/-- A run of postings on one balance: each transaction is posted on the balance
as the earlier calls left it. The result is the final balance and, in order,
the transactions whose call returned no error. -/
def Balance.postAll : Blnk.Balance → List Transaction → Blnk.Balance × List Transaction
  | b, [] => (b, [])
  | b, t :: ts =>
    let r := b.UpdateBalances t
    let rest := Balance.postAll r.2.1 ts
    (rest.1, if r.1 = none then t :: rest.2 else rest.2)

/-- Sum of a list of `int64` values with Go addition, from the left. -/
def sumInt64 (xs : List Int) : Int := xs.foldl addInt64 0

/-- The amounts of the "Credit" transactions of a list. -/
def creditAmounts (ts : List Transaction) : List Int :=
  (ts.filter (fun t => t.DRCR = "Credit")).map (fun t => t.Amount)

/-- The amounts of the "Debit" transactions of a list. -/
def debitAmounts (ts : List Transaction) : List Int :=
  (ts.filter (fun t => t.DRCR = "Debit")).map (fun t => t.Amount)

/-- A run of five calls: two credits, a rejected amount, a debit and a rejected
direction. -/
def sampleRun : List Transaction :=
  [scenarioATransaction, scenarioCTransaction, taggedCredit, debitFifty,
    scenarioDTransaction]

/-! ## Serialization

`ToJSON` is `json.Marshal(transaction)`. The library walks the fields of the
struct in declaration order and reads the `json` tag of each one; that walk is
modelled here on the tags the source declares. The encoders of the library for
the values themselves (integers, strings, times, maps) are a parameter `enc`,
which may fail as `json.Marshal` may. -/

/-- The value of a struct field, by the kinds of type `Transaction` uses. -/
inductive FieldValue where
  | int64 : Int → FieldValue
  | string : String → FieldValue
  | bool : Bool → FieldValue
  | time : Time → FieldValue
  | map : MetaData → FieldValue

/-- A struct field as the library reads it by reflection: its Go name, the
value of its `json` tag and its value. -/
structure Field where
  goName : String
  tag : String
  value : FieldValue

/-- The fields of `Transaction` in declaration order, each with the `json` tag
the source gives it. -/
def Transaction.fields (t : Transaction) : List Field :=
  [ ⟨"ID", "-", .int64 t.ID⟩,
    ⟨"TransactionID", "id", .string t.TransactionID⟩,
    ⟨"Tag", "tag", .string t.Tag⟩,
    ⟨"Reference", "reference", .string t.Reference⟩,
    ⟨"Amount", "amount", .int64 t.Amount⟩,
    ⟨"Currency", "currency", .string t.Currency⟩,
    ⟨"DRCR", "drcr", .string t.DRCR⟩,
    ⟨"Status", "status", .string t.Status⟩,
    ⟨"LedgerID", "ledger_id", .string t.LedgerID⟩,
    ⟨"BalanceID", "balance_id", .string t.BalanceID⟩,
    ⟨"CreditBalanceBefore", "credit_balance_before", .int64 t.CreditBalanceBefore⟩,
    ⟨"DebitBalanceBefore", "debit_balance_before", .int64 t.DebitBalanceBefore⟩,
    ⟨"CreditBalanceAfter", "credit_balance_after", .int64 t.CreditBalanceAfter⟩,
    ⟨"DebitBalanceAfter", "debit_balance_after", .int64 t.DebitBalanceAfter⟩,
    ⟨"BalanceBefore", "balance_before", .int64 t.BalanceBefore⟩,
    ⟨"BalanceAfter", "balance_after", .int64 t.BalanceAfter⟩,
    ⟨"CreatedAt", "created_at", .time t.CreatedAt⟩,
    ⟨"ScheduledFor", "scheduled_for,omitempty", .time t.ScheduledFor⟩,
    ⟨"SkipBalanceUpdate", "-", .bool t.SkipBalanceUpdate⟩,
    ⟨"MetaData", "meta_data,omitempty", .map t.MetaData⟩ ]

/-- Splits a list of characters at its commas. -/
def splitCommas : List Char → List (List Char)
  | [] => [[]]
  | c :: cs =>
    if c = ',' then [] :: splitCommas cs
    else
      match splitCommas cs with
      | [] => [[c]]
      | w :: ws => (c :: w) :: ws

/-- The text of a tag before its first comma: the key it names. -/
def tagName (tag : String) : String :=
  String.mk ((splitCommas tag.toList).headD [])

/-- The options of a tag: the words after its first comma. -/
def tagOptions (tag : String) : List String :=
  ((splitCommas tag.toList).drop 1).map String.mk

/-- The tag carries the option `omitempty`. -/
def tagOmitEmpty (tag : String) : Bool := (tagOptions tag).contains "omitempty"

/-- The test `isEmptyValue` of the library: zero numbers, `false`, empty
strings and empty maps are empty; a struct such as `time.Time` never is. -/
def isEmptyValue : FieldValue → Bool
  | .int64 n => n == 0
  | .string s => s == ""
  | .bool v => !v
  | .time _ => false
  | .map m => m.isEmpty

/-- The key a field is written under: the name its tag gives, or its Go name
when the tag gives none. -/
def Field.key (f : Field) : String :=
  if tagName f.tag = "" then f.goName else tagName f.tag

/-- The double quote. -/
def quoteMark : String := String.singleton (Char.ofNat 34)

/-- The members of the encoded object, in order: a field tagged `-` is left
out, a field tagged `omitempty` is left out when its value is empty, any other
field gives its quoted key, a colon and its encoded value; the first value that
fails to encode makes the whole encoding fail. -/
def marshalFields (enc : FieldValue → Except String String) :
    List Field → Except String (List String)
  | [] => .ok []
  | f :: fs =>
    if f.tag = "-" then marshalFields enc fs
    else if tagOmitEmpty f.tag && isEmptyValue f.value then marshalFields enc fs
    else
      match enc f.value with
      | .error e => .error e
      | .ok v =>
        match marshalFields enc fs with
        | .error e => .error e
        | .ok members => .ok ((quoteMark ++ f.key ++ quoteMark ++ ":" ++ v) :: members)

/-- The encoded object: the members between braces, separated by commas. -/
def marshalStruct (enc : FieldValue → Except String String) (fields : List Field) :
    Except String String :=
  match marshalFields enc fields with
  | .error e => .error e
  | .ok members =>
    .ok (String.singleton (Char.ofNat 123) ++ ",".intercalate members ++
      String.singleton (Char.ofNat 125))

/-- Method `ToJSON`: `json.Marshal(transaction)`; returns the bytes or the error,
together with the transaction as it is when the call returns. -/
def Transaction.ToJSON (transaction : Transaction)
    (enc : FieldValue → Except String String) : Except String String × Transaction :=
  (marshalStruct enc transaction.fields, transaction)

/-- Encoders standing in for those of the library when the model is run:
decimal integers, `true` and `false`, a string between double quotes with no
escaping, a time as its seconds, and no map but the empty one. -/
def sampleEncoder : FieldValue → Except String String
  | .int64 n => .ok (toString n)
  | .string s => .ok (quoteMark ++ s ++ quoteMark)
  | .bool v => .ok (if v then "true" else "false")
  | .time t => .ok (toString t.sec)
  | .map [] => .ok "null"
  | .map (_ :: _) => .error "json: unsupported value"

/-- The transaction `scenarioATransaction` with another `ID` and the flag set. -/
def scenarioAInternal : Transaction :=
  { scenarioATransaction with ID := 42, SkipBalanceUpdate := true }

/-! ## Basic facts about the operations -/

theorem wrapInt64_inInt64 (x : Int) : inInt64 (wrapInt64 x) := by
  unfold inInt64 wrapInt64 int64Min int64Max
  have h1 : 0 ≤ (x + 2 ^ 63) % 2 ^ 64 := Int.emod_nonneg _ (by norm_num)
  have h2 : (x + 2 ^ 63) % 2 ^ 64 < 2 ^ 64 := Int.emod_lt_of_pos _ (by norm_num)
  constructor <;> omega

theorem wrapInt64_of_inInt64 (x : Int) (h : inInt64 x) : wrapInt64 x = x := by
  unfold inInt64 int64Min int64Max at h
  unfold wrapInt64
  omega

theorem mulInt64_one (a : Int) (h : inInt64 a) : mulInt64 a 1 = a := by
  unfold mulInt64
  rw [mul_one]
  exact wrapInt64_of_inInt64 a h

theorem Transaction.validate_eq_none_iff (t : Transaction) :
    t.validate = none ↔ t.Valid := by
  unfold Transaction.validate Transaction.Valid
  by_cases hA : t.Amount ≤ 0
  · simp only [hA, if_true]
    constructor
    · intro h; cases h
    · intro h; omega
  · by_cases hC : t.DRCR = "Credit"
    · simp [hA, hC]; omega
    · by_cases hD : t.DRCR = "Debit"
      · simp [hA, hD]; omega
      · simp [hA, hC, hD]

theorem Transaction.validate_of_valid (t : Transaction) (h : t.Valid) :
    t.validate = none :=
  (Transaction.validate_eq_none_iff t).2 h

/-- The balance after a successful posting, field by field. -/
theorem Balance.UpdateBalances_balance (b : Blnk.Balance) (t : Transaction)
    (h : t.Valid) :
    (b.UpdateBalances t).2.1 =
      { b with
        CurrencyMultiplier := b.effectiveMultiplier
        CreditBalance :=
          if t.DRCR = "Credit" then
            addInt64 b.CreditBalance (mulInt64 t.Amount b.effectiveMultiplier)
          else b.CreditBalance
        DebitBalance :=
          if t.DRCR = "Credit" then b.DebitBalance
          else addInt64 b.DebitBalance (mulInt64 t.Amount b.effectiveMultiplier)
        Balance :=
          if t.DRCR = "Credit" then
            subInt64 (addInt64 b.CreditBalance (mulInt64 t.Amount b.effectiveMultiplier))
              b.DebitBalance
          else
            subInt64 b.CreditBalance
              (addInt64 b.DebitBalance (mulInt64 t.Amount b.effectiveMultiplier)) } := by
  have hv := Transaction.validate_of_valid t h
  unfold Balance.UpdateBalances
  rw [hv]
  by_cases hm : b.CurrencyMultiplier = 0 <;> by_cases hC : t.DRCR = "Credit" <;>
    simp [Balance.applyMultiplier, Balance.AttachBalanceBefore, Balance.AttachBalanceAfter,
      Balance.AddCredit, Balance.AddDebit, Balance.ComputeBalance,
      Balance.effectiveMultiplier, hm, hC]

/-- The transaction after a successful posting, field by field. -/
theorem Balance.UpdateBalances_transaction (b : Blnk.Balance) (t : Transaction)
    (h : t.Valid) :
    (b.UpdateBalances t).2.2 =
      { t with
        Amount := mulInt64 t.Amount b.effectiveMultiplier
        CreditBalanceBefore := b.CreditBalance
        DebitBalanceBefore := b.DebitBalance
        BalanceBefore := b.Balance
        CreditBalanceAfter := (b.UpdateBalances t).2.1.CreditBalance
        DebitBalanceAfter := (b.UpdateBalances t).2.1.DebitBalance
        BalanceAfter := (b.UpdateBalances t).2.1.Balance } := by
  have hv := Transaction.validate_of_valid t h
  unfold Balance.UpdateBalances
  rw [hv]
  by_cases hm : b.CurrencyMultiplier = 0 <;> by_cases hC : t.DRCR = "Credit" <;>
    simp [Balance.applyMultiplier, Balance.AttachBalanceBefore, Balance.AttachBalanceAfter,
      Balance.AddCredit, Balance.AddDebit, Balance.ComputeBalance,
      Balance.effectiveMultiplier, hm, hC]

/-- A posting of a valid transaction returns no error. -/
theorem Balance.UpdateBalances_error_of_valid (b : Blnk.Balance) (t : Transaction)
    (h : t.Valid) : (b.UpdateBalances t).1 = none := by
  have hv := Transaction.validate_of_valid t h
  unfold Balance.UpdateBalances
  rw [hv]

/-- A posting that fails validation returns the error of `validate` and the
two records as they were. -/
theorem Balance.UpdateBalances_of_invalid (b : Blnk.Balance) (t : Transaction)
    (e : String) (h : t.validate = some e) : b.UpdateBalances t = (some e, b, t) := by
  unfold Balance.UpdateBalances
  rw [h]

/-- The error `UpdateBalances` returns is the one `validate` returns. -/
theorem Balance.UpdateBalances_error (b : Blnk.Balance) (t : Transaction) :
    (b.UpdateBalances t).1 = t.validate := by
  cases hv : t.validate with
  | none =>
    unfold Balance.UpdateBalances
    rw [hv]
  | some e => rw [Balance.UpdateBalances_of_invalid b t e hv]

/-- Posting keeps the records well formed. -/
theorem Balance.UpdateBalances_WF (b : Blnk.Balance) (t : Transaction)
    (hb : b.WF) (ht : t.WF) :
    (b.UpdateBalances t).2.1.WF ∧ (b.UpdateBalances t).2.2.WF := by
  cases hv : t.validate with
  | some e =>
    rw [Balance.UpdateBalances_of_invalid b t e hv]
    exact ⟨hb, ht⟩
  | none =>
    have h := (Transaction.validate_eq_none_iff t).1 hv
    obtain ⟨hb1, hb2, hb3, hb4, hb5⟩ := hb
    obtain ⟨ht1, ht2, ht3, ht4, ht5, ht6, ht7, ht8⟩ := ht
    have hbal := Balance.UpdateBalances_balance b t h
    have htr := Balance.UpdateBalances_transaction b t h
    have hB : (b.UpdateBalances t).2.1.WF := by
      rw [hbal]
      unfold Balance.WF
      refine ⟨hb1, ?_, ?_, ?_, ?_⟩
      · dsimp only; split <;> exact wrapInt64_inInt64 _
      · dsimp only; split
        · exact wrapInt64_inInt64 _
        · exact hb3
      · dsimp only; split
        · exact hb4
        · exact wrapInt64_inInt64 _
      · dsimp only [Balance.effectiveMultiplier]; split
        · decide
        · exact hb5
    refine ⟨hB, ?_⟩
    obtain ⟨_, hB2, hB3, hB4, _⟩ := hB
    rw [htr]
    exact ⟨ht1, wrapInt64_inInt64 _, hb3, hb4, hB3, hB4, hb2, hB2⟩

/-- A posting that returns no error was given a valid transaction. -/
theorem Balance.valid_of_UpdateBalances_success (b : Blnk.Balance) (t : Transaction)
    (h : (b.UpdateBalances t).1 = none) : t.Valid := by
  rw [Balance.UpdateBalances_error] at h
  exact (Transaction.validate_eq_none_iff t).1 h

/-! ## The posting invariant -/

/-- C1: for every balance, whatever it stores, and every transaction with a
positive amount and direction "Credit" or "Debit", `UpdateBalances` succeeds and
the stored net balance is then the credit total minus the debit total, in
`int64` arithmetic. -/
theorem UpdateBalances_net_eq_credit_sub_debit (b : Blnk.Balance) (t : Transaction)
    (hA : 0 < t.Amount) (hD : t.DRCR = "Credit" ∨ t.DRCR = "Debit") :
    (b.UpdateBalances t).1 = none ∧
    (b.UpdateBalances t).2.1.Balance =
      subInt64 (b.UpdateBalances t).2.1.CreditBalance
        (b.UpdateBalances t).2.1.DebitBalance := by
  have h : t.Valid := ⟨hA, hD⟩
  refine ⟨Balance.UpdateBalances_error_of_valid b t h, ?_⟩
  rw [Balance.UpdateBalances_balance b t h]
  by_cases hC : t.DRCR = "Credit" <;> simp [hC]

theorem UpdateBalances_net_eq_credit_sub_debit_witness :
    (0 < debitFifty.Amount ∧ (debitFifty.DRCR = "Credit" ∨ debitFifty.DRCR = "Debit")) ∧
    (staleBalance.UpdateBalances debitFifty).1 = none ∧
    (staleBalance.UpdateBalances debitFifty).2.1.Balance =
      subInt64 (staleBalance.UpdateBalances debitFifty).2.1.CreditBalance
        (staleBalance.UpdateBalances debitFifty).2.1.DebitBalance :=
  ⟨by decide,
    UpdateBalances_net_eq_credit_sub_debit staleBalance debitFifty (by decide) (by decide)⟩

/-! ## Validation failures -/

/-- C2: when the transaction fails validation (amount at most 0, or a direction
other than "Credit" and "Debit"), `UpdateBalances` returns an error and both
records come back equal, in every field, to what they were before the call; in
particular a multiplier of 0 stays 0. -/
theorem UpdateBalances_invalid_no_mutation (b : Blnk.Balance) (t : Transaction)
    (h : t.Amount ≤ 0 ∨ ¬ (t.DRCR = "Credit" ∨ t.DRCR = "Debit")) :
    (b.UpdateBalances t).1 ≠ none ∧
    (b.UpdateBalances t).2.1 = b ∧
    (b.UpdateBalances t).2.2 = t ∧
    (b.UpdateBalances t).2.1.CurrencyMultiplier = b.CurrencyMultiplier := by
  cases hv : t.validate with
  | none =>
    have hval := (Transaction.validate_eq_none_iff t).1 hv
    rcases h with h | h
    · exact absurd hval.1 (not_lt.mpr h)
    · exact absurd hval.2 h
  | some e =>
    rw [Balance.UpdateBalances_of_invalid b t e hv]
    exact ⟨by simp, rfl, rfl, rfl⟩

theorem UpdateBalances_invalid_no_mutation_witness :
    (zeroAmountCredit.Amount ≤ 0 ∨
      ¬ (zeroAmountCredit.DRCR = "Credit" ∨ zeroAmountCredit.DRCR = "Debit")) ∧
    Balance.zero.CurrencyMultiplier = 0 ∧
    (Balance.zero.UpdateBalances zeroAmountCredit).1 ≠ none ∧
    (Balance.zero.UpdateBalances zeroAmountCredit).2.1 = Balance.zero ∧
    (Balance.zero.UpdateBalances zeroAmountCredit).2.2 = zeroAmountCredit ∧
    (Balance.zero.UpdateBalances zeroAmountCredit).2.1.CurrencyMultiplier =
      Balance.zero.CurrencyMultiplier :=
  ⟨by decide, by decide,
    UpdateBalances_invalid_no_mutation Balance.zero zeroAmountCredit (by decide)⟩

/-- C3: `UpdateBalances` returns an error exactly when the amount is at most 0
or the direction is neither "Credit" nor "Debit"; two calls, on any two
balances, whose transactions agree on amount and direction return the same
error, so both succeed or both fail. -/
theorem UpdateBalances_error_iff (b b' : Blnk.Balance) (t t' : Transaction)
    (hA : t.Amount = t'.Amount) (hD : t.DRCR = t'.DRCR) :
    ((b.UpdateBalances t).1 ≠ none ↔
      (t.Amount ≤ 0 ∨ (t.DRCR ≠ "Credit" ∧ t.DRCR ≠ "Debit"))) ∧
    ((b.UpdateBalances t).1 = none ↔ (b'.UpdateBalances t').1 = none) ∧
    (b.UpdateBalances t).1 = (b'.UpdateBalances t').1 := by
  have hsame : (b.UpdateBalances t).1 = (b'.UpdateBalances t').1 := by
    rw [Balance.UpdateBalances_error, Balance.UpdateBalances_error]
    unfold Transaction.validate
    rw [hA, hD]
  refine ⟨?_, by rw [hsame], hsame⟩
  rw [Balance.UpdateBalances_error, ne_eq, Transaction.validate_eq_none_iff]
  unfold Transaction.Valid
  constructor
  · intro h
    by_cases hp : t.Amount ≤ 0
    · exact Or.inl hp
    · refine Or.inr ⟨fun hc => h ⟨by omega, Or.inl hc⟩, fun hd => h ⟨by omega, Or.inr hd⟩⟩
  · rintro (h | ⟨h1, h2⟩) ⟨hp, hd⟩
    · omega
    · rcases hd with hd | hd
      · exact h1 hd
      · exact h2 hd

theorem UpdateBalances_error_iff_witness :
    (scenarioATransaction.Amount = taggedCredit.Amount ∧
      scenarioATransaction.DRCR = taggedCredit.DRCR) ∧
    (((scenarioABalance.UpdateBalances scenarioATransaction).1 ≠ none ↔
      (scenarioATransaction.Amount ≤ 0 ∨
        (scenarioATransaction.DRCR ≠ "Credit" ∧ scenarioATransaction.DRCR ≠ "Debit"))) ∧
    ((scenarioABalance.UpdateBalances scenarioATransaction).1 = none ↔
      (staleBalance.UpdateBalances taggedCredit).1 = none) ∧
    (scenarioABalance.UpdateBalances scenarioATransaction).1 =
      (staleBalance.UpdateBalances taggedCredit).1) :=
  ⟨by decide,
    UpdateBalances_error_iff scenarioABalance staleBalance scenarioATransaction taggedCredit
      (by decide) (by decide)⟩

/-! ## What a successful posting writes -/

/-- C4: after a successful `UpdateBalances`, a "Credit" transaction has added
the normalized amount (the amount the transaction carries after the call) to the
credit total, by `int64` addition, and left the debit total alone; a "Debit"
transaction has added it to the debit total and left the credit total alone. -/
theorem UpdateBalances_adds_to_named_total (b : Blnk.Balance) (t : Transaction)
    (hs : (b.UpdateBalances t).1 = none) :
    (t.DRCR = "Credit" →
      (b.UpdateBalances t).2.1.CreditBalance =
        addInt64 b.CreditBalance (b.UpdateBalances t).2.2.Amount ∧
      (b.UpdateBalances t).2.1.DebitBalance = b.DebitBalance) ∧
    (t.DRCR = "Debit" →
      (b.UpdateBalances t).2.1.DebitBalance =
        addInt64 b.DebitBalance (b.UpdateBalances t).2.2.Amount ∧
      (b.UpdateBalances t).2.1.CreditBalance = b.CreditBalance) := by
  have h := Balance.valid_of_UpdateBalances_success b t hs
  have hbal := Balance.UpdateBalances_balance b t h
  have htr := Balance.UpdateBalances_transaction b t h
  constructor
  · intro hC
    rw [htr, hbal]
    simp [hC]
  · intro hD
    have hC : t.DRCR ≠ "Credit" := by rw [hD]; decide
    rw [htr, hbal]
    simp [hC]

theorem UpdateBalances_adds_to_named_total_witness :
    (staleBalance.UpdateBalances debitFifty).1 = none ∧
    (staleBalance.UpdateBalances debitFifty).2.2.Amount = 150 ∧
    (staleBalance.UpdateBalances debitFifty).2.1.DebitBalance = 350 ∧
    ((debitFifty.DRCR = "Credit" →
      (staleBalance.UpdateBalances debitFifty).2.1.CreditBalance =
        addInt64 staleBalance.CreditBalance (staleBalance.UpdateBalances debitFifty).2.2.Amount ∧
      (staleBalance.UpdateBalances debitFifty).2.1.DebitBalance = staleBalance.DebitBalance) ∧
    (debitFifty.DRCR = "Debit" →
      (staleBalance.UpdateBalances debitFifty).2.1.DebitBalance =
        addInt64 staleBalance.DebitBalance (staleBalance.UpdateBalances debitFifty).2.2.Amount ∧
      (staleBalance.UpdateBalances debitFifty).2.1.CreditBalance =
        staleBalance.CreditBalance)) :=
  ⟨by decide, by decide, by decide,
    UpdateBalances_adds_to_named_total staleBalance debitFifty (by decide)⟩

/-- C5: after a successful `UpdateBalances`, the three "before" fields of the
transaction hold the credit total, debit total and net balance the balance
stored immediately before the call, and the three "after" fields hold the ones
it stores when the call returns. -/
theorem UpdateBalances_snapshots (b : Blnk.Balance) (t : Transaction)
    (hs : (b.UpdateBalances t).1 = none) :
    ((b.UpdateBalances t).2.2.CreditBalanceBefore = b.CreditBalance ∧
      (b.UpdateBalances t).2.2.DebitBalanceBefore = b.DebitBalance ∧
      (b.UpdateBalances t).2.2.BalanceBefore = b.Balance) ∧
    ((b.UpdateBalances t).2.2.CreditBalanceAfter = (b.UpdateBalances t).2.1.CreditBalance ∧
      (b.UpdateBalances t).2.2.DebitBalanceAfter = (b.UpdateBalances t).2.1.DebitBalance ∧
      (b.UpdateBalances t).2.2.BalanceAfter = (b.UpdateBalances t).2.1.Balance) := by
  have h := Balance.valid_of_UpdateBalances_success b t hs
  have htr := Balance.UpdateBalances_transaction b t h
  refine ⟨⟨?_, ?_, ?_⟩, ⟨?_, ?_, ?_⟩⟩ <;> rw [htr]

theorem UpdateBalances_snapshots_witness :
    (staleBalance.UpdateBalances debitFifty).1 = none ∧
    (staleBalance.UpdateBalances debitFifty).2.2.BalanceBefore = 7 ∧
    (staleBalance.UpdateBalances debitFifty).2.2.BalanceAfter = 150 ∧
    (((staleBalance.UpdateBalances debitFifty).2.2.CreditBalanceBefore =
        staleBalance.CreditBalance ∧
      (staleBalance.UpdateBalances debitFifty).2.2.DebitBalanceBefore =
        staleBalance.DebitBalance ∧
      (staleBalance.UpdateBalances debitFifty).2.2.BalanceBefore = staleBalance.Balance) ∧
    ((staleBalance.UpdateBalances debitFifty).2.2.CreditBalanceAfter =
        (staleBalance.UpdateBalances debitFifty).2.1.CreditBalance ∧
      (staleBalance.UpdateBalances debitFifty).2.2.DebitBalanceAfter =
        (staleBalance.UpdateBalances debitFifty).2.1.DebitBalance ∧
      (staleBalance.UpdateBalances debitFifty).2.2.BalanceAfter =
        (staleBalance.UpdateBalances debitFifty).2.1.Balance)) :=
  ⟨by decide, by decide, by decide,
    UpdateBalances_snapshots staleBalance debitFifty (by decide)⟩

/-! ## Normalization of the amount -/

/-- C6: after a successful `UpdateBalances` of a valid transaction of amount
`a` on a balance of multiplier `m`, the transaction carries `a * m` (`int64`
multiplication) when `m` is not 0 and `a * 1` when it is; and in Scenario A
(credit 0, debit 0, multiplier 2, a credit of 100) the posting succeeds with
amount 200, credit total 200, debit total 0, net balance 200, balance before 0
and balance after 200. -/
theorem UpdateBalances_amount_normalized (b : Blnk.Balance) (t : Transaction)
    (h : 0 < t.Amount ∧ (t.DRCR = "Credit" ∨ t.DRCR = "Debit")) :
    ((b.UpdateBalances t).1 = none ∧
      (b.UpdateBalances t).2.2.Amount =
        mulInt64 t.Amount (if b.CurrencyMultiplier ≠ 0 then b.CurrencyMultiplier else 1)) ∧
    ((scenarioABalance.UpdateBalances scenarioATransaction).1 = none ∧
      (scenarioABalance.UpdateBalances scenarioATransaction).2.2.Amount = 200 ∧
      (scenarioABalance.UpdateBalances scenarioATransaction).2.1.CreditBalance = 200 ∧
      (scenarioABalance.UpdateBalances scenarioATransaction).2.1.DebitBalance = 0 ∧
      (scenarioABalance.UpdateBalances scenarioATransaction).2.1.Balance = 200 ∧
      (scenarioABalance.UpdateBalances scenarioATransaction).2.2.BalanceBefore = 0 ∧
      (scenarioABalance.UpdateBalances scenarioATransaction).2.2.BalanceAfter = 200) := by
  refine ⟨⟨Balance.UpdateBalances_error_of_valid b t h, ?_⟩, by decide⟩
  rw [Balance.UpdateBalances_transaction b t h]
  by_cases hm : b.CurrencyMultiplier = 0 <;> simp [Balance.effectiveMultiplier, hm]

theorem UpdateBalances_amount_normalized_witness :
    (0 < scenarioATransaction.Amount ∧
      (scenarioATransaction.DRCR = "Credit" ∨ scenarioATransaction.DRCR = "Debit")) ∧
    (scenarioABalance.UpdateBalances scenarioATransaction).2.2.Amount =
      mulInt64 100 2 :=
  ⟨by decide,
    (UpdateBalances_amount_normalized scenarioABalance scenarioATransaction
      (by decide)).1.2⟩

/-- C7: two balances that agree in every field except that the first stores
multiplier 0 and the second multiplier 1 give, for every valid transaction, the
same result of `UpdateBalances` (error, resulting transaction and resulting
balance), and the resulting balance stores multiplier 1. -/
theorem UpdateBalances_multiplier_zero_as_one (b0 b1 : Blnk.Balance) (t : Transaction)
    (h : t.Valid) (h0 : b0.CurrencyMultiplier = 0)
    (h1 : b1 = { b0 with CurrencyMultiplier := 1 }) :
    b0.UpdateBalances t = b1.UpdateBalances t ∧
    (b0.UpdateBalances t).2.2 = (b1.UpdateBalances t).2.2 ∧
    (b0.UpdateBalances t).2.1 = (b1.UpdateBalances t).2.1 ∧
    (b0.UpdateBalances t).2.1.CurrencyMultiplier = 1 := by
  have hv := Transaction.validate_of_valid t h
  have key : b0.UpdateBalances t = b1.UpdateBalances t := by
    subst h1
    unfold Balance.UpdateBalances
    rw [hv]
    simp [Balance.applyMultiplier, h0]
  refine ⟨key, by rw [key], by rw [key], ?_⟩
  rw [Balance.UpdateBalances_balance b0 t h]
  simp [Balance.effectiveMultiplier, h0]

theorem UpdateBalances_multiplier_zero_as_one_witness :
    (debitFifty.Valid ∧ unsetMultiplierBalance.CurrencyMultiplier = 0) ∧
    unsetMultiplierBalance.UpdateBalances debitFifty =
      unitMultiplierBalance.UpdateBalances debitFifty ∧
    (unsetMultiplierBalance.UpdateBalances debitFifty).2.2 =
      (unitMultiplierBalance.UpdateBalances debitFifty).2.2 ∧
    (unsetMultiplierBalance.UpdateBalances debitFifty).2.1 =
      (unitMultiplierBalance.UpdateBalances debitFifty).2.1 ∧
    (unsetMultiplierBalance.UpdateBalances debitFifty).2.1.CurrencyMultiplier = 1 :=
  ⟨by decide,
    UpdateBalances_multiplier_zero_as_one unsetMultiplierBalance unitMultiplierBalance
      debitFifty (by decide) (by decide) rfl⟩

/-! ## The flag `SkipBalanceUpdate` -/

/-- A flagged credit of 100 posted on the zero balance: the posting succeeds and
the credit total and the net balance become 100, so the totals are not left
unchanged. -/
theorem UpdateBalances_skip_flag_leaves_totals_counterexample :
    (0 < skippedCredit.Amount ∧
      (skippedCredit.DRCR = "Credit" ∨ skippedCredit.DRCR = "Debit")) ∧
    skippedCredit.SkipBalanceUpdate = true ∧
    (Balance.zero.UpdateBalances skippedCredit).1 = none ∧
    (Balance.zero.UpdateBalances skippedCredit).2.1.CreditBalance = 100 ∧
    (Balance.zero.UpdateBalances skippedCredit).2.1.Balance = 100 ∧
    ¬ ((Balance.zero.UpdateBalances skippedCredit).2.1.CreditBalance =
          Balance.zero.CreditBalance ∧
        (Balance.zero.UpdateBalances skippedCredit).2.1.DebitBalance =
          Balance.zero.DebitBalance ∧
        (Balance.zero.UpdateBalances skippedCredit).2.1.Balance = Balance.zero.Balance) := by
  decide

/-- C8, as amended: `UpdateBalances` does not consult `SkipBalanceUpdate`. For a
valid transaction with the flag set the posting succeeds and yields the balance
it yields for the same transaction with the flag cleared: the total named by the
direction grows by the normalized amount (`int64` addition), the other total is
unchanged, the net balance is recomputed as credit minus debit; the flag stays
set on the transaction. -/
theorem UpdateBalances_skip_flag_not_consulted (b : Blnk.Balance) (t : Transaction)
    (h : 0 < t.Amount ∧ (t.DRCR = "Credit" ∨ t.DRCR = "Debit"))
    (hskip : t.SkipBalanceUpdate = true) :
    (b.UpdateBalances t).1 = none ∧
    (b.UpdateBalances t).2.1 =
      (b.UpdateBalances { t with SkipBalanceUpdate := false }).2.1 ∧
    (t.DRCR = "Credit" →
      (b.UpdateBalances t).2.1.CreditBalance =
        addInt64 b.CreditBalance (b.UpdateBalances t).2.2.Amount ∧
      (b.UpdateBalances t).2.1.DebitBalance = b.DebitBalance) ∧
    (t.DRCR = "Debit" →
      (b.UpdateBalances t).2.1.DebitBalance =
        addInt64 b.DebitBalance (b.UpdateBalances t).2.2.Amount ∧
      (b.UpdateBalances t).2.1.CreditBalance = b.CreditBalance) ∧
    (b.UpdateBalances t).2.1.Balance =
      subInt64 (b.UpdateBalances t).2.1.CreditBalance
        (b.UpdateBalances t).2.1.DebitBalance ∧
    (b.UpdateBalances t).2.2.SkipBalanceUpdate = true := by
  have h' : ({ t with SkipBalanceUpdate := false } : Transaction).Valid := h
  have hbal := Balance.UpdateBalances_balance b t h
  have hbal' := Balance.UpdateBalances_balance b { t with SkipBalanceUpdate := false } h'
  have htr := Balance.UpdateBalances_transaction b t h
  refine ⟨Balance.UpdateBalances_error_of_valid b t h, ?_, ?_, ?_, ?_, ?_⟩
  · rw [hbal, hbal']
  · intro hC
    rw [htr, hbal]
    simp [hC]
  · intro hD
    have hC : t.DRCR ≠ "Credit" := by rw [hD]; decide
    rw [htr, hbal]
    simp [hC]
  · rw [hbal]
    by_cases hC : t.DRCR = "Credit" <;> simp [hC]
  · rw [htr]
    exact hskip

theorem UpdateBalances_skip_flag_not_consulted_witness :
    ((0 < taggedCredit.Amount ∧
        (taggedCredit.DRCR = "Credit" ∨ taggedCredit.DRCR = "Debit")) ∧
      taggedCredit.SkipBalanceUpdate = true) ∧
    (staleBalance.UpdateBalances taggedCredit).2.1.CreditBalance = 800 ∧
    (staleBalance.UpdateBalances taggedCredit).1 = none ∧
    (staleBalance.UpdateBalances taggedCredit).2.1 =
      (staleBalance.UpdateBalances { taggedCredit with SkipBalanceUpdate := false }).2.1 :=
  ⟨by decide, by decide,
    (UpdateBalances_skip_flag_not_consulted staleBalance taggedCredit
      (by decide) (by decide)).1,
    (UpdateBalances_skip_flag_not_consulted staleBalance taggedCredit
      (by decide) (by decide)).2.1⟩

/-! ## The two validation errors -/

/-- C9: a transaction of amount at most 0, whatever its direction, fails
`validate` with the error "transaction amount must be positive", and so does
`UpdateBalances` on any balance, which it leaves as it was; Scenario C (amount
-10, direction "Credit") is such a failure. -/
theorem validate_nonpositive_amount (b : Blnk.Balance) (t : Transaction)
    (h : t.Amount ≤ 0) :
    t.validate = some "transaction amount must be positive" ∧
    b.UpdateBalances t = (some "transaction amount must be positive", b, t) ∧
    scenarioCTransaction.validate = some "transaction amount must be positive" ∧
    b.UpdateBalances scenarioCTransaction =
      (some "transaction amount must be positive", b, scenarioCTransaction) := by
  have hv : ∀ u : Transaction, u.Amount ≤ 0 → u.validate = some errInvalidAmount := by
    intro u hu
    unfold Transaction.validate
    rw [if_pos hu]
  have hC : scenarioCTransaction.Amount ≤ 0 := by decide
  exact ⟨hv t h, Balance.UpdateBalances_of_invalid b t _ (hv t h),
    hv _ hC, Balance.UpdateBalances_of_invalid b _ _ (hv _ hC)⟩

theorem validate_nonpositive_amount_witness :
    scenarioCTransaction.Amount ≤ 0 ∧
    staleBalance.UpdateBalances scenarioCTransaction =
      (some "transaction amount must be positive", staleBalance, scenarioCTransaction) :=
  ⟨by decide, (validate_nonpositive_amount staleBalance scenarioCTransaction (by decide)).2.1⟩

/-- Amount -10 with direction "credit": the direction is bad, yet the error is
the invalid-amount one. -/
theorem validate_bad_direction_counterexample :
    (wrongCaseNegative.DRCR ≠ "Credit" ∧ wrongCaseNegative.DRCR ≠ "Debit") ∧
    wrongCaseNegative.validate ≠ some "transaction DRCR must be 'Credit' or 'Debit'" ∧
    wrongCaseNegative.validate = some "transaction amount must be positive" ∧
    (Balance.zero.UpdateBalances wrongCaseNegative).1 =
      some "transaction amount must be positive" := by
  decide

/-- C10, as amended: a transaction whose direction is neither exactly "Credit"
nor exactly "Debit" always fails `validate`, and so `UpdateBalances`, which
leaves both records as they were; the error is "transaction DRCR must be
'Credit' or 'Debit'" when the amount is positive, and the invalid-amount error
when the amount is at most 0, since the amount is checked first. Scenario D
(amount 10, direction "credit") fails with the invalid-direction error. -/
theorem validate_bad_direction (b : Blnk.Balance) (t : Transaction)
    (hD : t.DRCR ≠ "Credit" ∧ t.DRCR ≠ "Debit") :
    (t.validate ≠ none ∧ (b.UpdateBalances t).1 ≠ none ∧
      (b.UpdateBalances t).2.1 = b ∧ (b.UpdateBalances t).2.2 = t) ∧
    (0 < t.Amount →
      t.validate = some "transaction DRCR must be 'Credit' or 'Debit'" ∧
      b.UpdateBalances t = (some "transaction DRCR must be 'Credit' or 'Debit'", b, t)) ∧
    (t.Amount ≤ 0 → t.validate = some "transaction amount must be positive") ∧
    b.UpdateBalances scenarioDTransaction =
      (some "transaction DRCR must be 'Credit' or 'Debit'", b, scenarioDTransaction) := by
  have hpos : 0 < t.Amount → t.validate = some errInvalidDirection := by
    intro hA
    unfold Transaction.validate
    rw [if_neg (not_le.mpr hA), if_pos hD]
  have hneg : t.Amount ≤ 0 → t.validate = some errInvalidAmount := by
    intro hA
    unfold Transaction.validate
    rw [if_pos hA]
  have hsome : ∃ e, t.validate = some e := by
    by_cases hA : 0 < t.Amount
    · exact ⟨_, hpos hA⟩
    · exact ⟨_, hneg (not_lt.mp hA)⟩
  obtain ⟨e, he⟩ := hsome
  have hS : scenarioDTransaction.validate = some errInvalidDirection := by decide
  refine ⟨?_, ?_, hneg, Balance.UpdateBalances_of_invalid b _ _ hS⟩
  · rw [Balance.UpdateBalances_of_invalid b t e he, he]
    exact ⟨by simp, by simp, rfl, rfl⟩
  · intro hA
    exact ⟨hpos hA, Balance.UpdateBalances_of_invalid b t _ (hpos hA)⟩

theorem validate_bad_direction_witness :
    (scenarioDTransaction.DRCR ≠ "Credit" ∧ scenarioDTransaction.DRCR ≠ "Debit") ∧
    0 < scenarioDTransaction.Amount ∧
    staleBalance.UpdateBalances scenarioDTransaction =
      (some "transaction DRCR must be 'Credit' or 'Debit'", staleBalance,
        scenarioDTransaction) :=
  ⟨by decide, by decide,
    ((validate_bad_direction staleBalance scenarioDTransaction (by decide)).2.1
      (by decide)).2⟩

/-! ## Wrap-around arithmetic -/

theorem wrapInt64_add_wrapInt64 (x y : Int) :
    wrapInt64 (x + wrapInt64 y) = wrapInt64 (x + y) := by
  unfold wrapInt64
  omega

theorem wrapInt64_wrapInt64_add (x y : Int) :
    wrapInt64 (wrapInt64 x + y) = wrapInt64 (x + y) := by
  unfold wrapInt64
  omega

theorem wrapInt64_wrapInt64_sub (x y : Int) :
    wrapInt64 (wrapInt64 x - y) = wrapInt64 (x - y) := by
  unfold wrapInt64
  omega

theorem wrapInt64_sub_wrapInt64 (x y : Int) :
    wrapInt64 (x - wrapInt64 y) = wrapInt64 (x - y) := by
  unfold wrapInt64
  omega

theorem wrapInt64_modEq (x : Int) : wrapInt64 x ≡ x [ZMOD 2 ^ 64] := by
  unfold Int.ModEq wrapInt64
  omega

theorem wrapInt64_eq_of_modEq (x y : Int) (h : x ≡ y [ZMOD 2 ^ 64]) :
    wrapInt64 x = wrapInt64 y := by
  unfold Int.ModEq at h
  unfold wrapInt64
  omega

theorem wrapInt64_wrapInt64_mul (x y : Int) :
    wrapInt64 (wrapInt64 x * y) = wrapInt64 (x * y) :=
  wrapInt64_eq_of_modEq _ _ ((wrapInt64_modEq x).mul_right y)

/-- The effective multiplier of a balance with a non-negative multiplier is at
least 1. -/
theorem Balance.one_le_effectiveMultiplier (b : Blnk.Balance)
    (h : 0 ≤ b.CurrencyMultiplier) : 1 ≤ b.effectiveMultiplier := by
  unfold Balance.effectiveMultiplier
  split <;> omega

/-! ## Direction and growth of the totals -/

/-- Two postings that succeed without raising the total named by the direction:
a credit of 100 on a zero balance of multiplier -1 takes the credit total from 0
to -100, and a credit of 1 on a credit total of `2^63 - 1` wraps it to `-2^63`. -/
theorem UpdateBalances_total_increases_counterexample :
    ((negativeMultiplierBalance.UpdateBalances scenarioATransaction).1 = none ∧
      scenarioATransaction.DRCR = "Credit" ∧
      (negativeMultiplierBalance.UpdateBalances scenarioATransaction).2.1.CreditBalance = -100 ∧
      ¬ (negativeMultiplierBalance.UpdateBalances scenarioATransaction).2.1.CreditBalance >
          negativeMultiplierBalance.CreditBalance) ∧
    ((fullCreditBalance.UpdateBalances creditOne).1 = none ∧
      creditOne.DRCR = "Credit" ∧ fullCreditBalance.WF ∧
      (fullCreditBalance.UpdateBalances creditOne).2.1.CreditBalance =
        -9223372036854775808 ∧
      ¬ (fullCreditBalance.UpdateBalances creditOne).2.1.CreditBalance >
          fullCreditBalance.CreditBalance) := by
  decide

/-- C11, as amended: after a successful `UpdateBalances` on a balance whose
multiplier is not negative, when the normalized amount `a * m'` fits `int64`, a
"Credit" transaction whose sum with the old credit total fits `int64` leaves a
larger credit total, and a "Debit" transaction whose sum with the old debit
total fits `int64` leaves a larger debit total. -/
theorem UpdateBalances_total_increases (b : Blnk.Balance) (t : Transaction)
    (hs : (b.UpdateBalances t).1 = none) (hm : 0 ≤ b.CurrencyMultiplier)
    (hn : inInt64 (t.Amount * b.effectiveMultiplier)) :
    (t.DRCR = "Credit" → inInt64 (b.CreditBalance + t.Amount * b.effectiveMultiplier) →
      (b.UpdateBalances t).2.1.CreditBalance > b.CreditBalance) ∧
    (t.DRCR = "Debit" → inInt64 (b.DebitBalance + t.Amount * b.effectiveMultiplier) →
      (b.UpdateBalances t).2.1.DebitBalance > b.DebitBalance) := by
  have h := Balance.valid_of_UpdateBalances_success b t hs
  have hbal := Balance.UpdateBalances_balance b t h
  have hone := Balance.one_le_effectiveMultiplier b hm
  have hpos : 0 < t.Amount * b.effectiveMultiplier :=
    Int.mul_pos h.1 (by omega)
  have hmul : mulInt64 t.Amount b.effectiveMultiplier = t.Amount * b.effectiveMultiplier :=
    wrapInt64_of_inInt64 _ hn
  constructor
  · intro hC hfit
    rw [hbal]
    simp only [hC, if_true, hmul, addInt64]
    rw [wrapInt64_of_inInt64 _ hfit]
    omega
  · intro hD hfit
    have hC : t.DRCR ≠ "Credit" := by rw [hD]; decide
    rw [hbal]
    simp only [hC, if_false, hmul, addInt64]
    rw [wrapInt64_of_inInt64 _ hfit]
    omega

theorem UpdateBalances_total_increases_witness :
    ((staleBalance.UpdateBalances taggedCredit).1 = none ∧
      0 ≤ staleBalance.CurrencyMultiplier ∧
      inInt64 (taggedCredit.Amount * staleBalance.effectiveMultiplier) ∧
      taggedCredit.DRCR = "Credit" ∧
      inInt64 (staleBalance.CreditBalance +
        taggedCredit.Amount * staleBalance.effectiveMultiplier)) ∧
    (staleBalance.UpdateBalances taggedCredit).2.1.CreditBalance >
      staleBalance.CreditBalance :=
  ⟨by decide,
    (UpdateBalances_total_increases staleBalance taggedCredit (by decide) (by decide)
      (by decide)).1 (by decide) (by decide)⟩

/-! ## Scenario B -/

/-- Scenario B on the balance as the scenario gives it: the posting succeeds but
records 0, the stored net balance, as the balance before, not 300. -/
theorem scenarioB_balance_before_counterexample :
    (scenarioBBalance.UpdateBalances scenarioBTransaction).2.2.BalanceBefore = 0 ∧
    ¬ ((scenarioBBalance.UpdateBalances scenarioBTransaction).1 = none ∧
      (scenarioBBalance.UpdateBalances scenarioBTransaction).2.1.DebitBalance = 250 ∧
      (scenarioBBalance.UpdateBalances scenarioBTransaction).2.1.Balance = 250 ∧
      (scenarioBBalance.UpdateBalances scenarioBTransaction).2.2.BalanceBefore = 300 ∧
      (scenarioBBalance.UpdateBalances scenarioBTransaction).2.2.BalanceAfter = 250) := by
  decide

/-- C12, as amended: in Scenario B (credit total 500, debit total 200,
multiplier 1, every other field zero, a debit of 50) the posting succeeds with
debit total 250, net balance 250 and balance after 250, and the balance before
is 0, the net balance the record stored; it is 300 when the balance is given
with its net balance field at 300. -/
theorem scenarioB_posting :
    ((scenarioBBalance.UpdateBalances scenarioBTransaction).1 = none ∧
      (scenarioBBalance.UpdateBalances scenarioBTransaction).2.1.DebitBalance = 250 ∧
      (scenarioBBalance.UpdateBalances scenarioBTransaction).2.1.Balance = 250 ∧
      (scenarioBBalance.UpdateBalances scenarioBTransaction).2.2.BalanceBefore = 0 ∧
      (scenarioBBalance.UpdateBalances scenarioBTransaction).2.2.BalanceAfter = 250) ∧
    ((scenarioBConsistentBalance.UpdateBalances scenarioBTransaction).1 = none ∧
      (scenarioBConsistentBalance.UpdateBalances scenarioBTransaction).2.1.DebitBalance = 250 ∧
      (scenarioBConsistentBalance.UpdateBalances scenarioBTransaction).2.1.Balance = 250 ∧
      (scenarioBConsistentBalance.UpdateBalances scenarioBTransaction).2.2.BalanceBefore = 300 ∧
      (scenarioBConsistentBalance.UpdateBalances scenarioBTransaction).2.2.BalanceAfter = 250) := by
  decide

/-! ## Posting the same transaction twice -/

/-- The effective multiplier is never 0. -/
theorem Balance.effectiveMultiplier_ne_zero (b : Blnk.Balance) :
    b.effectiveMultiplier ≠ 0 := by
  unfold Balance.effectiveMultiplier
  split
  · decide
  · assumption

/-- A "Credit" transaction posted twice, when its normalized amount is still
positive after the first posting: the amount is multiplied twice and both the
normalized and the twice normalized amount are added to the credit total. -/
theorem Balance.postTwice_credit (b : Blnk.Balance) (t : Transaction) (h : t.Valid)
    (hC : t.DRCR = "Credit") (h2 : 0 < mulInt64 t.Amount b.effectiveMultiplier) :
    (b.postTwice t).1 = none ∧
    (b.postTwice t).2.2.Amount =
      mulInt64 (mulInt64 t.Amount b.effectiveMultiplier) b.effectiveMultiplier ∧
    (b.postTwice t).2.1.CreditBalance =
      addInt64 (addInt64 b.CreditBalance (mulInt64 t.Amount b.effectiveMultiplier))
        (mulInt64 (mulInt64 t.Amount b.effectiveMultiplier) b.effectiveMultiplier) := by
  have hbal := Balance.UpdateBalances_balance b t h
  have htr := Balance.UpdateBalances_transaction b t h
  have hA : (b.UpdateBalances t).2.2.Amount = mulInt64 t.Amount b.effectiveMultiplier := by
    rw [htr]
  have hD : (b.UpdateBalances t).2.2.DRCR = "Credit" := by
    rw [htr]; exact hC
  have hv : (b.UpdateBalances t).2.2.Valid := ⟨by rw [hA]; exact h2, Or.inl hD⟩
  have hm : (b.UpdateBalances t).2.1.effectiveMultiplier = b.effectiveMultiplier := by
    have hne := Balance.effectiveMultiplier_ne_zero b
    have hcm : (b.UpdateBalances t).2.1.CurrencyMultiplier = b.effectiveMultiplier := by
      rw [hbal]
    unfold Balance.effectiveMultiplier at hne ⊢
    rw [hcm]
    unfold Balance.effectiveMultiplier
    rw [if_neg hne]
  have hc : (b.UpdateBalances t).2.1.CreditBalance =
      addInt64 b.CreditBalance (mulInt64 t.Amount b.effectiveMultiplier) := by
    rw [hbal]; simp [hC]
  unfold Balance.postTwice
  refine ⟨Balance.UpdateBalances_error_of_valid _ _ hv, ?_, ?_⟩
  · rw [Balance.UpdateBalances_transaction _ _ hv]
    simp only [hA, hm]
  · rw [Balance.UpdateBalances_balance _ _ hv]
    simp only [hD, if_true, hA, hm, hc]

/-- C13: posting is not idempotent. On a zero balance (credit 0, debit 0, net 0,
multiplier unset) a "Credit" transaction of amount `a > 0` posted twice, the
second time as the first posting left it, succeeds both times and leaves the
credit total `a + a`, that is `2 * a` in `int64` arithmetic (and exactly `2 * a`
when that fits `int64`); for `a = 100` the credit total is 200. -/
theorem postTwice_accumulates_twice (b : Blnk.Balance) (t : Transaction)
    (hb : b.CreditBalance = 0 ∧ b.DebitBalance = 0 ∧ b.Balance = 0 ∧
      b.CurrencyMultiplier = 0)
    (hC : t.DRCR = "Credit") (ha : 0 < t.Amount) (hr : inInt64 t.Amount) :
    ((b.UpdateBalances t).1 = none ∧ (b.postTwice t).1 = none) ∧
    (b.UpdateBalances t).2.1.CreditBalance = t.Amount ∧
    (b.postTwice t).2.1.CreditBalance = addInt64 t.Amount t.Amount ∧
    (b.postTwice t).2.1.CreditBalance = mulInt64 2 t.Amount ∧
    (inInt64 (2 * t.Amount) → (b.postTwice t).2.1.CreditBalance = 2 * t.Amount) ∧
    (Balance.zero.postTwice scenarioATransaction).2.1.CreditBalance = 200 := by
  obtain ⟨hb1, -, -, hb4⟩ := hb
  have h : t.Valid := ⟨ha, Or.inl hC⟩
  have hm : b.effectiveMultiplier = 1 := by
    unfold Balance.effectiveMultiplier
    rw [if_pos hb4]
  have hmul : mulInt64 t.Amount b.effectiveMultiplier = t.Amount := by
    rw [hm]; exact mulInt64_one _ hr
  have h2 : 0 < mulInt64 t.Amount b.effectiveMultiplier := by
    rw [hmul]; exact ha
  obtain ⟨hs2, -, hc2⟩ := Balance.postTwice_credit b t h hC h2
  rw [hmul, hmul, hb1] at hc2
  have hzero : addInt64 0 t.Amount = t.Amount := by
    unfold addInt64
    rw [zero_add]
    exact wrapInt64_of_inInt64 _ hr
  rw [hzero] at hc2
  have hc1 : (b.UpdateBalances t).2.1.CreditBalance = t.Amount := by
    rw [Balance.UpdateBalances_balance b t h]
    simp only [hC, if_true, hmul, hb1, hzero]
  have htwo : addInt64 t.Amount t.Amount = mulInt64 2 t.Amount := by
    unfold addInt64 mulInt64
    rw [two_mul]
  refine ⟨⟨Balance.UpdateBalances_error_of_valid b t h, hs2⟩, hc1, hc2, ?_, ?_, by decide⟩
  · rw [hc2, htwo]
  · intro hfit
    rw [hc2, htwo]
    exact wrapInt64_of_inInt64 _ hfit

theorem postTwice_accumulates_twice_witness :
    ((Balance.zero.CreditBalance = 0 ∧ Balance.zero.DebitBalance = 0 ∧
        Balance.zero.Balance = 0 ∧ Balance.zero.CurrencyMultiplier = 0) ∧
      scenarioATransaction.DRCR = "Credit" ∧ 0 < scenarioATransaction.Amount ∧
      inInt64 scenarioATransaction.Amount) ∧
    ((Balance.zero.UpdateBalances scenarioATransaction).1 = none ∧
      (Balance.zero.postTwice scenarioATransaction).1 = none) ∧
    (Balance.zero.postTwice scenarioATransaction).2.1.CreditBalance =
      mulInt64 2 scenarioATransaction.Amount :=
  ⟨by decide,
    (postTwice_accumulates_twice Balance.zero scenarioATransaction (by decide) (by decide)
      (by decide) (by decide)).1,
    (postTwice_accumulates_twice Balance.zero scenarioATransaction (by decide) (by decide)
      (by decide) (by decide)).2.2.2.1⟩

/-- C17: posting the same "Credit" transaction object twice on a balance of
multiplier `m`, not 0, with both calls succeeding, multiplies the amount twice:
the transaction ends with amount `a * m * m` and the credit total is raised by
`a * m + a * m * m` in all (`int64` arithmetic), which is a raise of `2 * a * m`
exactly when `a * m * m == a * m`. -/
theorem postTwice_reapplies_multiplier (b : Blnk.Balance) (t : Transaction)
    (hm : b.CurrencyMultiplier ≠ 0) (hC : t.DRCR = "Credit") (ha : 0 < t.Amount)
    (hs1 : (b.UpdateBalances t).1 = none) (hs2 : (b.postTwice t).1 = none) :
    (b.postTwice t).2.2.Amount =
      mulInt64 (mulInt64 t.Amount b.CurrencyMultiplier) b.CurrencyMultiplier ∧
    (b.postTwice t).2.2.Amount =
      wrapInt64 (t.Amount * b.CurrencyMultiplier * b.CurrencyMultiplier) ∧
    (b.postTwice t).2.1.CreditBalance =
      addInt64 b.CreditBalance
        (addInt64 (mulInt64 t.Amount b.CurrencyMultiplier)
          (mulInt64 (mulInt64 t.Amount b.CurrencyMultiplier) b.CurrencyMultiplier)) ∧
    ((b.postTwice t).2.1.CreditBalance =
        addInt64 b.CreditBalance (mulInt64 2 (mulInt64 t.Amount b.CurrencyMultiplier)) ↔
      mulInt64 (mulInt64 t.Amount b.CurrencyMultiplier) b.CurrencyMultiplier =
        mulInt64 t.Amount b.CurrencyMultiplier) := by
  have h : t.Valid := ⟨ha, (Balance.valid_of_UpdateBalances_success b t hs1).2⟩
  have hem : b.effectiveMultiplier = b.CurrencyMultiplier := by
    unfold Balance.effectiveMultiplier
    rw [if_neg hm]
  have hv2 := Balance.valid_of_UpdateBalances_success _ _ hs2
  have h2 : 0 < mulInt64 t.Amount b.effectiveMultiplier := by
    have := hv2.1
    rw [Balance.UpdateBalances_transaction b t h] at this
    exact this
  obtain ⟨-, hamt, hcr⟩ := Balance.postTwice_credit b t h hC h2
  rw [hem] at hamt hcr
  have hr1 : inInt64 (mulInt64 t.Amount b.CurrencyMultiplier) := wrapInt64_inInt64 _
  have hr2 : inInt64 (mulInt64 (mulInt64 t.Amount b.CurrencyMultiplier) b.CurrencyMultiplier) :=
    wrapInt64_inInt64 _
  refine ⟨hamt, ?_, ?_, ?_⟩
  · rw [hamt]
    unfold mulInt64
    exact wrapInt64_wrapInt64_mul _ _
  · rw [hcr]
    unfold addInt64
    rw [wrapInt64_wrapInt64_add, wrapInt64_add_wrapInt64, add_assoc]
  · rw [hcr]
    unfold addInt64
    rw [wrapInt64_wrapInt64_add]
    generalize mulInt64 (mulInt64 t.Amount b.CurrencyMultiplier) b.CurrencyMultiplier = y
      at hr2 ⊢
    generalize mulInt64 t.Amount b.CurrencyMultiplier = x at hr1 ⊢
    unfold mulInt64 wrapInt64
    unfold inInt64 int64Min int64Max at hr1 hr2
    omega

theorem postTwice_reapplies_multiplier_witness :
    (staleBalance.CurrencyMultiplier ≠ 0 ∧ taggedCredit.DRCR = "Credit" ∧
      0 < taggedCredit.Amount ∧ (staleBalance.UpdateBalances taggedCredit).1 = none ∧
      (staleBalance.postTwice taggedCredit).1 = none) ∧
    (staleBalance.postTwice taggedCredit).2.2.Amount = 900 ∧
    (staleBalance.postTwice taggedCredit).2.1.CreditBalance = 1700 ∧
    (staleBalance.postTwice taggedCredit).2.2.Amount =
      mulInt64 (mulInt64 taggedCredit.Amount staleBalance.CurrencyMultiplier)
        staleBalance.CurrencyMultiplier :=
  ⟨by decide, by decide, by decide,
    (postTwice_reapplies_multiplier staleBalance taggedCredit (by decide) (by decide)
      (by decide) (by decide) (by decide)).1⟩

/-! ## Snapshots of a consistent balance -/

/-- C16: when the balance stores a consistent net balance before the call
(`Balance == CreditBalance - DebitBalance`), a successful posting of a valid
transaction records `BalanceAfter == BalanceBefore + Amount` for a "Credit" and
`BalanceAfter == BalanceBefore - Amount` for a "Debit", `Amount` being the
normalized amount and the arithmetic that of `int64`. Without the precondition
the equation can fail: on `staleBalance`, which stores 7 against totals 500 and
200, a debit of 50 records before 7, amount 150 and after 150. -/
theorem UpdateBalances_snapshot_delta (b : Blnk.Balance) (t : Transaction)
    (hcons : b.Balance = subInt64 b.CreditBalance b.DebitBalance)
    (h : 0 < t.Amount ∧ (t.DRCR = "Credit" ∨ t.DRCR = "Debit")) :
    (b.UpdateBalances t).1 = none ∧
    (t.DRCR = "Credit" →
      (b.UpdateBalances t).2.2.BalanceAfter =
        addInt64 (b.UpdateBalances t).2.2.BalanceBefore (b.UpdateBalances t).2.2.Amount) ∧
    (t.DRCR = "Debit" →
      (b.UpdateBalances t).2.2.BalanceAfter =
        subInt64 (b.UpdateBalances t).2.2.BalanceBefore (b.UpdateBalances t).2.2.Amount) ∧
    ((staleBalance.UpdateBalances debitFifty).1 = none ∧
      (staleBalance.UpdateBalances debitFifty).2.2.BalanceAfter ≠
        subInt64 (staleBalance.UpdateBalances debitFifty).2.2.BalanceBefore
          (staleBalance.UpdateBalances debitFifty).2.2.Amount) := by
  have hbal := Balance.UpdateBalances_balance b t h
  have htr := Balance.UpdateBalances_transaction b t h
  have hA : (b.UpdateBalances t).2.2.Amount = mulInt64 t.Amount b.effectiveMultiplier := by
    rw [htr]
  have hB : (b.UpdateBalances t).2.2.BalanceBefore = b.Balance := by
    rw [htr]
  have hF : (b.UpdateBalances t).2.2.BalanceAfter = (b.UpdateBalances t).2.1.Balance := by
    rw [htr]
  refine ⟨Balance.UpdateBalances_error_of_valid b t h, ?_, ?_, by decide⟩
  · intro hC
    rw [hF, hA, hB, hcons, hbal]
    simp only [hC, if_true]
    unfold addInt64 subInt64
    rw [wrapInt64_wrapInt64_sub, wrapInt64_wrapInt64_add]
    congr 1
    ring
  · intro hD
    have hC : t.DRCR ≠ "Credit" := by rw [hD]; decide
    rw [hF, hA, hB, hcons, hbal]
    simp only [hC, if_false]
    unfold addInt64 subInt64
    rw [wrapInt64_sub_wrapInt64, wrapInt64_wrapInt64_sub]
    congr 1
    ring

theorem UpdateBalances_snapshot_delta_witness :
    (unitMultiplierBalance.Balance =
        subInt64 unitMultiplierBalance.CreditBalance unitMultiplierBalance.DebitBalance ∧
      0 < debitFifty.Amount ∧ (debitFifty.DRCR = "Credit" ∨ debitFifty.DRCR = "Debit")) ∧
    (unitMultiplierBalance.UpdateBalances debitFifty).2.2.BalanceBefore = 300 ∧
    (unitMultiplierBalance.UpdateBalances debitFifty).2.2.BalanceAfter = 250 ∧
    (unitMultiplierBalance.UpdateBalances debitFifty).1 = none :=
  ⟨by decide, by decide, by decide,
    (UpdateBalances_snapshot_delta unitMultiplierBalance debitFifty (by decide)
      (by decide)).1⟩

/-! ## The frame of a successful posting -/

/-- C18: a successful `UpdateBalances` writes, on the transaction, only `Amount`
and the six snapshot fields, and on the balance only `Balance`, the two totals
and `CurrencyMultiplier`; of the two totals the one the direction does not name
keeps its value, and the multiplier keeps its value unless it was 0, in which
case it becomes 1. Every other field of both records is as before the call. -/
theorem UpdateBalances_frame (b : Blnk.Balance) (t : Transaction)
    (hs : (b.UpdateBalances t).1 = none) :
    (b.UpdateBalances t).2.2 =
      { t with
        Amount := (b.UpdateBalances t).2.2.Amount
        CreditBalanceBefore := (b.UpdateBalances t).2.2.CreditBalanceBefore
        DebitBalanceBefore := (b.UpdateBalances t).2.2.DebitBalanceBefore
        BalanceBefore := (b.UpdateBalances t).2.2.BalanceBefore
        CreditBalanceAfter := (b.UpdateBalances t).2.2.CreditBalanceAfter
        DebitBalanceAfter := (b.UpdateBalances t).2.2.DebitBalanceAfter
        BalanceAfter := (b.UpdateBalances t).2.2.BalanceAfter } ∧
    (b.UpdateBalances t).2.1 =
      { b with
        Balance := (b.UpdateBalances t).2.1.Balance
        CreditBalance := (b.UpdateBalances t).2.1.CreditBalance
        DebitBalance := (b.UpdateBalances t).2.1.DebitBalance
        CurrencyMultiplier := (b.UpdateBalances t).2.1.CurrencyMultiplier } ∧
    (t.DRCR = "Credit" → (b.UpdateBalances t).2.1.DebitBalance = b.DebitBalance) ∧
    (t.DRCR = "Debit" → (b.UpdateBalances t).2.1.CreditBalance = b.CreditBalance) ∧
    (b.CurrencyMultiplier ≠ 0 →
      (b.UpdateBalances t).2.1.CurrencyMultiplier = b.CurrencyMultiplier) ∧
    (b.CurrencyMultiplier = 0 → (b.UpdateBalances t).2.1.CurrencyMultiplier = 1) := by
  have h := Balance.valid_of_UpdateBalances_success b t hs
  have hbal := Balance.UpdateBalances_balance b t h
  have htr := Balance.UpdateBalances_transaction b t h
  refine ⟨?_, ?_, ?_, ?_, ?_, ?_⟩
  · rw [htr]
  · rw [hbal]
  · intro hC
    rw [hbal]
    simp [hC]
  · intro hD
    have hC : t.DRCR ≠ "Credit" := by rw [hD]; decide
    rw [hbal]
    simp [hC]
  · intro hm
    rw [hbal]
    simp [Balance.effectiveMultiplier, hm]
  · intro hm
    rw [hbal]
    simp [Balance.effectiveMultiplier, hm]

theorem UpdateBalances_frame_witness :
    (Balance.zero.UpdateBalances taggedCredit).1 = none ∧
    (Balance.zero.UpdateBalances taggedCredit).2.2.Tag = "rent" ∧
    (Balance.zero.UpdateBalances taggedCredit).2.2.SkipBalanceUpdate = true ∧
    (Balance.zero.UpdateBalances taggedCredit).2.1.CurrencyMultiplier = 1 ∧
    (Balance.zero.UpdateBalances taggedCredit).2.1 =
      { Balance.zero with
        Balance := (Balance.zero.UpdateBalances taggedCredit).2.1.Balance
        CreditBalance := (Balance.zero.UpdateBalances taggedCredit).2.1.CreditBalance
        DebitBalance := (Balance.zero.UpdateBalances taggedCredit).2.1.DebitBalance
        CurrencyMultiplier :=
          (Balance.zero.UpdateBalances taggedCredit).2.1.CurrencyMultiplier } :=
  ⟨by decide, by decide, by decide, by decide,
    (UpdateBalances_frame Balance.zero taggedCredit (by decide)).2.1⟩

/-! ## Runs of postings -/

theorem Balance.postAll_cons_invalid (b : Blnk.Balance) (t : Transaction)
    (ts : List Transaction) (e : String) (hv : t.validate = some e) :
    b.postAll (t :: ts) = b.postAll ts := by
  have hU := Balance.UpdateBalances_of_invalid b t e hv
  simp [Balance.postAll, hU]

theorem Balance.postAll_cons_valid (b : Blnk.Balance) (t : Transaction)
    (ts : List Transaction) (h : t.Valid) :
    b.postAll (t :: ts) =
      (((b.UpdateBalances t).2.1.postAll ts).1,
        t :: ((b.UpdateBalances t).2.1.postAll ts).2) := by
  have hU := Balance.UpdateBalances_error_of_valid b t h
  simp [Balance.postAll, hU]

/-- The totals after a run, for a balance whose multiplier is 0 or 1 and
amounts within `int64`: the posted transactions are the valid ones, each total
is the old total plus the amounts posted in its direction, and a consistent net
balance stays consistent. -/
theorem Balance.postAll_totals (ts : List Transaction) :
    ∀ b : Blnk.Balance, (b.CurrencyMultiplier = 0 ∨ b.CurrencyMultiplier = 1) →
      (∀ t ∈ ts, inInt64 t.Amount) →
      (b.postAll ts).2 = ts.filter (fun t => t.validate = none) ∧
      (b.postAll ts).1.CreditBalance =
        (creditAmounts (b.postAll ts).2).foldl addInt64 b.CreditBalance ∧
      (b.postAll ts).1.DebitBalance =
        (debitAmounts (b.postAll ts).2).foldl addInt64 b.DebitBalance ∧
      (b.Balance = subInt64 b.CreditBalance b.DebitBalance →
        (b.postAll ts).1.Balance =
          subInt64 (b.postAll ts).1.CreditBalance (b.postAll ts).1.DebitBalance) := by
  induction ts with
  | nil =>
    intro b _ _
    simp [Balance.postAll, creditAmounts, debitAmounts]
  | cons t ts ih =>
    intro b hm hr
    have hrt : inInt64 t.Amount := hr t (List.mem_cons_self t ts)
    have hrts : ∀ u ∈ ts, inInt64 u.Amount := fun u hu => hr u (List.mem_cons_of_mem t hu)
    cases hv : t.validate with
    | some e =>
      rw [Balance.postAll_cons_invalid b t ts e hv]
      obtain ⟨h1, h2, h3, h4⟩ := ih b hm hrts
      refine ⟨?_, h2, h3, h4⟩
      rw [h1]
      simp [List.filter_cons, hv]
    | none =>
      have h := (Transaction.validate_eq_none_iff t).1 hv
      have hbal := Balance.UpdateBalances_balance b t h
      have hem : b.effectiveMultiplier = 1 := by
        unfold Balance.effectiveMultiplier
        rcases hm with hm | hm
        · rw [if_pos hm]
        · rw [hm]; decide
      have hmul : mulInt64 t.Amount b.effectiveMultiplier = t.Amount := by
        rw [hem]; exact mulInt64_one _ hrt
      have hcm : (b.UpdateBalances t).2.1.CurrencyMultiplier = 1 := by
        rw [hbal]; exact hem
      have hcons : (b.UpdateBalances t).2.1.Balance =
          subInt64 (b.UpdateBalances t).2.1.CreditBalance
            (b.UpdateBalances t).2.1.DebitBalance := by
        rw [hbal]
        by_cases hC : t.DRCR = "Credit" <;> simp [hC]
      obtain ⟨h1, h2, h3, h4⟩ := ih (b.UpdateBalances t).2.1 (Or.inr hcm) hrts
      rw [Balance.postAll_cons_valid b t ts h]
      refine ⟨?_, ?_, ?_, fun _ => h4 hcons⟩
      · simp only [h1]
        simp [List.filter_cons, hv]
      · simp only [h2]
        rw [hbal]
        by_cases hC : t.DRCR = "Credit"
        · simp [creditAmounts, List.filter_cons, hC, hmul]
        · simp [creditAmounts, List.filter_cons, hC]
      · simp only [h3]
        rw [hbal]
        rcases h.2 with hC | hD
        · have hD : t.DRCR ≠ "Debit" := by rw [hC]; decide
          simp [debitAmounts, List.filter_cons, hC, hD]
        · have hC : t.DRCR ≠ "Credit" := by rw [hD]; decide
          simp [debitAmounts, List.filter_cons, hC, hD, hmul]

/-- C15: starting from a newly created balance (credit 0, debit 0, net 0,
multiplier 0 or 1) and posting any finite list of transactions, valid or not,
each once, after every call (after the first `n` calls, for every `n`) the
transactions posted so far are exactly the valid ones, the credit total is the
`int64` sum of the amounts of the posted "Credit" transactions, the debit total
is the `int64` sum of the amounts of the posted "Debit" transactions, and the net
balance is the credit total minus the debit total; failed calls add nothing. -/
theorem postAll_totals_from_new (b : Blnk.Balance) (ts : List Transaction) (n : Nat)
    (hnew : b.CreditBalance = 0 ∧ b.DebitBalance = 0 ∧ b.Balance = 0 ∧
      (b.CurrencyMultiplier = 0 ∨ b.CurrencyMultiplier = 1))
    (hr : ∀ t ∈ ts, inInt64 t.Amount) :
    (b.postAll (ts.take n)).2 = (ts.take n).filter (fun t => t.validate = none) ∧
    (b.postAll (ts.take n)).1.CreditBalance =
      sumInt64 (creditAmounts (b.postAll (ts.take n)).2) ∧
    (b.postAll (ts.take n)).1.DebitBalance =
      sumInt64 (debitAmounts (b.postAll (ts.take n)).2) ∧
    (b.postAll (ts.take n)).1.Balance =
      subInt64 (b.postAll (ts.take n)).1.CreditBalance
        (b.postAll (ts.take n)).1.DebitBalance := by
  obtain ⟨hc, hd, hb, hm⟩ := hnew
  have hr' : ∀ t ∈ ts.take n, inInt64 t.Amount :=
    fun t ht => hr t (List.mem_of_mem_take ht)
  obtain ⟨h1, h2, h3, h4⟩ := Balance.postAll_totals (ts.take n) b hm hr'
  rw [hc] at h2
  rw [hd] at h3
  refine ⟨h1, h2, h3, h4 ?_⟩
  rw [hc, hd, hb]
  decide

theorem postAll_totals_from_new_witness :
    ((Balance.zero.CreditBalance = 0 ∧ Balance.zero.DebitBalance = 0 ∧
        Balance.zero.Balance = 0 ∧
        (Balance.zero.CurrencyMultiplier = 0 ∨ Balance.zero.CurrencyMultiplier = 1)) ∧
      ∀ t ∈ sampleRun, inInt64 t.Amount) ∧
    (Balance.zero.postAll (sampleRun.take 4)).1.CreditBalance = 200 ∧
    (Balance.zero.postAll (sampleRun.take 4)).1.DebitBalance = 50 ∧
    (Balance.zero.postAll (sampleRun.take 4)).1.Balance = 150 ∧
    (Balance.zero.postAll (sampleRun.take 4)).1.CreditBalance =
      sumInt64 (creditAmounts (Balance.zero.postAll (sampleRun.take 4)).2) :=
  ⟨by decide, by decide, by decide, by decide,
    (postAll_totals_from_new Balance.zero sampleRun 4 (by decide) (by decide)).2.1⟩

/-! ## Serialization -/

/-- A field tagged `-` adds nothing to the encoding. -/
theorem marshalFields_skip (enc : FieldValue → Except String String) (n : String)
    (v : FieldValue) (fs : List Field) :
    marshalFields enc (⟨n, "-", v⟩ :: fs) = marshalFields enc fs := by
  simp [marshalFields]

/-- Equal encodings of the later fields give equal encodings behind the same
first field. -/
theorem marshalFields_cons_congr (enc : FieldValue → Except String String) (f : Field)
    (fs fs' : List Field) (h : marshalFields enc fs = marshalFields enc fs') :
    marshalFields enc (f :: fs) = marshalFields enc (f :: fs') := by
  unfold marshalFields
  rw [h]

/-- The members of an encoded transaction do not depend on its `ID` nor on its
`SkipBalanceUpdate`. -/
theorem marshalFields_fields_eq (enc : FieldValue → Except String String)
    (t : Transaction) (id : Int) (skip : Bool) :
    marshalFields enc ({ t with ID := id, SkipBalanceUpdate := skip } : Transaction).fields =
      marshalFields enc t.fields := by
  unfold Transaction.fields
  rw [marshalFields_skip, marshalFields_skip]
  iterate 17 apply marshalFields_cons_congr
  rw [marshalFields_skip, marshalFields_skip]

/-- With the sample encoders a transaction without metadata is written as 17
members: the 20 fields less `ID`, `SkipBalanceUpdate` and the empty `MetaData`;
the zero `ScheduledFor` is written, and the amount shows in the bytes. -/
theorem ToJSON_sample :
    (marshalFields sampleEncoder scenarioAInternal.fields).toOption.map List.length =
      some 17 ∧
    (scenarioATransaction.ToJSON sampleEncoder).1.toOption ≠
      (creditOne.ToJSON sampleEncoder).1.toOption := by
  decide

/-- C14: `ToJSON` exposes neither the internal numeric identifier nor the flag
`SkipBalanceUpdate`: two transactions that differ only in `ID` and
`SkipBalanceUpdate` serialize to the same result (the same bytes, or the same
error), whatever the encoders of the values, and serialization leaves the
transaction as it was. -/
theorem ToJSON_hides_ID_and_SkipBalanceUpdate (enc : FieldValue → Except String String)
    (t t' : Transaction)
    (h : t' = { t with ID := t'.ID, SkipBalanceUpdate := t'.SkipBalanceUpdate }) :
    (t'.ToJSON enc).1 = (t.ToJSON enc).1 ∧
    (t.ToJSON enc).2 = t ∧ (t'.ToJSON enc).2 = t' := by
  refine ⟨?_, rfl, rfl⟩
  rw [h]
  unfold Transaction.ToJSON marshalStruct
  simp only [marshalFields_fields_eq]

theorem ToJSON_hides_ID_and_SkipBalanceUpdate_witness :
    (scenarioAInternal.ID ≠ scenarioATransaction.ID ∧
      scenarioAInternal.SkipBalanceUpdate ≠ scenarioATransaction.SkipBalanceUpdate) ∧
    (scenarioAInternal.ToJSON sampleEncoder).1 =
      (scenarioATransaction.ToJSON sampleEncoder).1 ∧
    (scenarioATransaction.ToJSON sampleEncoder).2 = scenarioATransaction ∧
    (scenarioAInternal.ToJSON sampleEncoder).2 = scenarioAInternal :=
  ⟨by decide,
    ToJSON_hides_ID_and_SkipBalanceUpdate sampleEncoder scenarioATransaction
      scenarioAInternal rfl⟩

end Blnk
